import Mathlib

/-!
Verification of the TLS-interception layer of libmproxy
(`src/libmproxy/protocol/tls.py`), shallowly embedded in Lean.

Bytes are modelled as `Nat`, byte strings as `List Nat`, Python `str` values
as `String`, Python `None`-able values as `Option`, and Python exceptions as
`Except` errors.  The non-consuming `rfile.peek(n)` primitive over the client
stream is modelled by `List.take n` on an immutable byte list.  External
collaborators (the construct-based ClientHello grammar, netlib connection
endpoints, the certificate store, IDNA encoding) enter as parameters.
-/

namespace MitmproxyTls

/-- Embeds `is_tls_record_magic`: the first three bytes must be
`0x16 0x03 {0x00..0x03}` (and at least three bytes must be present). -/
def is_tls_record_magic (d : List Nat) : Bool :=
  match d.take 3 with
  | [b0, b1, b2] => b0 == 22 && b1 == 3 && (b2 == 0 || b2 == 1 || b2 == 2 || b2 == 3)
  | _ => false

/-- Exceptions that `_get_client_hello` can raise: the two
`ProtocolException`s it raises itself, and the `struct.error` that
`struct.unpack("!I", '\x00' + client_hello[1:4])` raises when fewer than
three bytes follow the first accumulated byte. -/
inductive ReassemblyError where
  | expectedTlsRecord
  | unexpectedEof
  | structError
deriving DecidableEq

/-- True for the errors `_get_client_hello` raises as `ProtocolException`
(those are the ones `_parse_client_hello` catches). -/
def is_protocol_exception : ReassemblyError → Bool
  | ReassemblyError.expectedTlsRecord => true
  | ReassemblyError.unexpectedEof => true
  | ReassemblyError.structError => false

/-- Embeds `self.client_conn.rfile.peek(offset + 5)[offset:]`. -/
def record_header_at (stream : List Nat) (offset : Nat) : List Nat :=
  (stream.take (offset + 5)).drop offset

/-- Embeds `struct.unpack("!H", record_header[3:])[0] + 5`. -/
def record_size_of (header : List Nat) : Nat :=
  256 * header.getD 3 0 + header.getD 4 0 + 5

/-- Embeds `self.client_conn.rfile.peek(offset + record_size)[offset + 5:]`. -/
def record_body_at (stream : List Nat) (offset record_size : Nat) : List Nat :=
  (stream.take (offset + record_size)).drop (offset + 5)

/-- Embeds `struct.unpack("!I", '\x00' + client_hello[1:4])[0] + 4`:
the 3-byte big-endian handshake length following the 1-byte message type,
plus the 4 header bytes. -/
def client_hello_size_of (client_hello : List Nat) : Nat :=
  65536 * ((client_hello.drop 1).take 3).getD 0 0 +
    256 * ((client_hello.drop 1).take 3).getD 1 0 +
    ((client_hello.drop 1).take 3).getD 2 0 + 4

/-- Embeds the `while len(client_hello) < client_hello_size` loop of
`_get_client_hello`: peek a 5-byte record header, validate the magic,
peek the record body, append it to the accumulator, recompute the
declared handshake size, repeat.  The `struct.error` branch corresponds
to `client_hello[1:4]` holding fewer than 3 bytes, which makes
`struct.unpack("!I", ...)` fail in the source. -/
def get_client_hello_loop (stream acc : List Nat) (size offset : Nat) :
    Except ReassemblyError (List Nat) :=
  if acc.length < size then
    if h5 : is_tls_record_magic (record_header_at stream offset) = true ∧
        (record_header_at stream offset).length = 5 then
      if (record_body_at stream offset (record_size_of (record_header_at stream offset))).length =
          record_size_of (record_header_at stream offset) - 5 then
        if (((acc ++ record_body_at stream offset
              (record_size_of (record_header_at stream offset))).drop 1).take 3).length = 3 then
          get_client_hello_loop stream
            (acc ++ record_body_at stream offset
              (record_size_of (record_header_at stream offset)))
            (client_hello_size_of
              (acc ++ record_body_at stream offset
                (record_size_of (record_header_at stream offset))))
            (offset + record_size_of (record_header_at stream offset))
        else Except.error ReassemblyError.structError
      else Except.error ReassemblyError.unexpectedEof
    else Except.error ReassemblyError.expectedTlsRecord
  else Except.ok acc
termination_by stream.length - offset
decreasing_by
  have hlen := h5.2
  simp only [record_header_at, List.length_drop, List.length_take] at hlen
  simp only [record_size_of]
  omega

/-- Embeds `_get_client_hello`: `client_hello = ""`, `client_hello_size = 1`,
`offset = 0`, then the reassembly loop.  Returns the raw handshake bytes
(handshake header included), or the exception raised. -/
def get_client_hello (stream : List Nat) : Except ReassemblyError (List Nat) :=
  get_client_hello_loop stream [] 1 0

/-- One TLS record on the wire: content type `0x16`, version major `0x03`,
version minor `v`, 16-bit big-endian body length, body.  Used to state
properties of reassembly over fragmented ClientHellos. -/
def serialize_record (v : Nat) (body : List Nat) : List Nat :=
  22 :: 3 :: v :: (body.length / 256) :: (body.length % 256) :: body

/-- A sequence of TLS records on the wire. -/
def serialize_records : List (Nat × List Nat) → List Nat
  | [] => []
  | (v, body) :: rest => serialize_record v body ++ serialize_records rest

/-- One entry of the server-name extension, as produced by the ClientHello
grammar: an entry type byte and a name. -/
structure ServerName where
  type : Nat
  name : String
deriving DecidableEq

/-- A parsed ClientHello extension as seen by the extension walk of
`_parse_client_hello`: the server-name extension (`type == 0x00`) with its
entries, the ALPN extension (`type == 0x10`) with its protocol list, or any
other extension type, whose payload the walk ignores. -/
inductive ParsedExtension where
  | serverNames (entries : List ServerName)
  | alpn (protocols : List String)
  | other (t : Nat)
deriving DecidableEq

/-- Exceptions that can escape `_parse_client_hello`: the `IndexError`
from `extension.server_names[0]` on an empty entry list, and the
`struct.error` forwarded from `_get_client_hello` (neither is a
`ProtocolException` or `ConstructError`, so neither is caught). -/
inductive ParseAbort where
  | indexError
  | structError
deriving DecidableEq

/-- Embeds the `for extension in client_hello.extensions` walk of
`_parse_client_hello`.  Returns the final `client_sni`,
`client_alpn_protocols` and the number of "Unknown Server Name Indication"
warnings logged, or the exception raised.  For an empty server-name entry
list the source logs the warning and then raises `IndexError` on
`extension.server_names[0]`; for a non-empty list it warns when the length
differs from 1 or the first entry type differs from 0 (Python's `or`
short-circuits, so the first entry is only inspected when the length is 1),
and always takes `server_names[0].name`. -/
def walk_extensions : List ParsedExtension → Option String → Option (List String) → Nat →
    Except ParseAbort (Option String × Option (List String) × Nat)
  | [], sni, alpn, warnings => Except.ok (sni, alpn, warnings)
  | ParsedExtension.serverNames [] :: _, _, _, _ =>
      Except.error ParseAbort.indexError
  | ParsedExtension.serverNames (n :: rest) :: exts, _, alpn, warnings =>
      walk_extensions exts (some n.name) alpn
        (warnings + if (n :: rest).length ≠ 1 ∨ n.type ≠ 0 then 1 else 0)
  | ParsedExtension.alpn protocols :: exts, sni, _, warnings =>
      walk_extensions exts sni (some protocols) warnings
  | ParsedExtension.other _ :: exts, sni, alpn, warnings =>
      walk_extensions exts sni alpn warnings

/-- Embeds `_parse_client_hello`.  The construct-based grammar
`ClientHello.parse` lives outside this repository, so it enters as the
parameter `parseCH` (its `ConstructError` failure is `Except.error ()`).
A `ProtocolException` from `_get_client_hello` and a `ConstructError` from
`parseCH` are caught and logged, leaving `client_sni` and
`client_alpn_protocols` unset; any other exception propagates. -/
def parse_client_hello
    (parseCH : List Nat → Except Unit (List ParsedExtension)) (stream : List Nat) :
    Except ParseAbort (Option String × Option (List String)) :=
  match get_client_hello stream with
  | Except.error e =>
      if is_protocol_exception e then Except.ok (none, none)
      else Except.error ParseAbort.structError
  | Except.ok raw =>
      match parseCH (raw.drop 4) with
      | Except.error _ => Except.ok (none, none)
      | Except.ok exts =>
          match walk_extensions exts none none 0 with
          | Except.error a => Except.error a
          | Except.ok (sni, alpn, _) => Except.ok (sni, alpn)

/-- The Python value stored in `self._sni_from_server_change`:
`None`, `False`, or a string (the spec's `Unset | ForceNone | Explicit`). -/
inductive SniSetting where
  | pyNone
  | pyFalse
  | pyStr (s : String)
deriving DecidableEq

/-- Embeds the property `sni_for_server_connection`:
`None` if `self._sni_from_server_change is False`, else
`self._sni_from_server_change or self.client_sni` (Python truthiness:
the empty string is falsy and falls through to `client_sni`). -/
def sni_for_server_connection (sni_from_server_change : SniSetting)
    (client_sni : Option String) : Option String :=
  match sni_from_server_change with
  | SniSetting.pyFalse => none
  | SniSetting.pyNone => client_sni
  | SniSetting.pyStr s => if s = "" then client_sni else some s

/-- The name carried by an explicit override, if the stored value is a
string. -/
def sni_override_name : SniSetting → Option String
  | SniSetting.pyStr s => some s
  | _ => none

/-- Modelled from the spec: netlib's `HTTP1Protocol.ALPN_PROTO_HTTP1`
(netlib is not part of this repository); the spec names it "the default
token \"http/1.1\"". -/
def ALPN_PROTO_HTTP1 : String := "http/1.1"

/-- The shared fallback of `__alpn_select_callback`: the default token if
the client offered it, else `options[0]` (an `IndexError` on an empty
list). -/
def alpn_fallback_choice (options : List String) : Except ParseAbort String :=
  if ALPN_PROTO_HTTP1 ∈ options then Except.ok ALPN_PROTO_HTTP1
  else
    match options with
    | [] => Except.error ParseAbort.indexError
    | o :: _ => Except.ok o

/-- Embeds `__alpn_select_callback`.  `server_negotiated` is
`self.alpn_for_client_connection`, i.e. the protocol the server connection
reports as negotiated, `none` when there is none; `options` is the
client-offered list.  The source prefers the server's choice when offered,
else the default token, else the first offer. -/
def alpn_select_callback (server_negotiated : Option String) (options : List String) :
    Except ParseAbort String :=
  match server_negotiated with
  | some p => if p ∈ options then Except.ok p else alpn_fallback_choice options
  | none => alpn_fallback_choice options

/-- Embeds `_find_cert`.  `idna` stands for Python's
`cn.decode("utf8").encode("idna")`; the certificate store call
`self.config.certstore.get_cert(host, list(sans))` receives the returned
pair.  Python's truthiness tests (`if upstream_cert.cn`, `if
self.client_sni`, `if self._sni_from_server_change`) treat the empty
string, `None` and `False` as absent. -/
def find_cert (server_host : String) (tls_established no_upstream_cert : Bool)
    (upstream_altnames : List String) (upstream_cn : Option String)
    (client_sni : Option String) (sni_from_server_change : SniSetting)
    (idna : String → String) : String × Finset String :=
  let base : String × Finset String :=
    if tls_established && !no_upstream_cert then
      match upstream_cn with
      | some c =>
          if c = "" then (server_host, upstream_altnames.toFinset)
          else (idna c, insert server_host upstream_altnames.toFinset)
      | none => (server_host, upstream_altnames.toFinset)
    else (server_host, (∅ : Finset String))
  let sans2 : Finset String :=
    match client_sni with
    | some s => if s = "" then base.2 else insert s base.2
    | none => base.2
  let sans3 : Finset String :=
    match sni_from_server_change with
    | SniSetting.pyStr s => if s = "" then sans2 else insert s sans2
    | _ => sans2
  (base.1, sans3.erase base.1)

/-- Follows the claim's words for certificate resolution, for comparison
with `find_cert`: host starts as the server destination host and sans as
the empty set; if upstream TLS is established and mirroring enabled, the
upstream SAN list is added, and if the upstream certificate has a common
name the original host is added and host is replaced by the IDNA encoding
of the common name; then the extracted client SNI (if any) and the
explicit SNI override (if any) are added; finally host is removed from
sans. -/
def spec_find_cert (server_host : String) (tls_established no_upstream_cert : Bool)
    (upstream_altnames : List String) (upstream_cn : Option String)
    (client_sni : Option String) (sni_override : Option String)
    (idna : String → String) : String × Finset String :=
  let base : String × Finset String :=
    if tls_established && !no_upstream_cert then
      match upstream_cn with
      | some c => (idna c, insert server_host upstream_altnames.toFinset)
      | none => (server_host, upstream_altnames.toFinset)
    else (server_host, (∅ : Finset String))
  let sans2 : Finset String :=
    match client_sni with
    | some s => insert s base.2
    | none => base.2
  let sans3 : Finset String :=
    match sni_override with
    | some s => insert s sans2
    | none => sans2
  (base.1, sans3.erase base.1)

/-- Outcome of the external `server_conn.establish_ssl` call:
success, `NetLibInvalidCertificateError`, or another `NetLibError`. -/
inductive EstablishOutcome where
  | ok
  | invalidCertificateError
  | netlibError
deriving DecidableEq

/-- The log lines `_establish_tls_with_server` produces around peer
certificate verification. -/
inductive ServerTlsLog where
  | verifyFailed (depth errno : Nat)
  | ignoringVerifyError
deriving DecidableEq

/-- Embeds the error handling of `_establish_tls_with_server` around the
`establish_ssl` call: on success with a reported
`ssl_verification_error`, the failure is logged with its chain depth and
error code, a second line says it is ignored, and no exception is raised;
on `NetLibInvalidCertificateError` or any other `NetLibError`, a
`ProtocolException` (here `Except.error ()`) is raised. -/
def establish_tls_with_server (outcome : EstablishOutcome)
    (verification_error : Option (Nat × Nat)) : Except Unit (List ServerTlsLog) :=
  match outcome with
  | EstablishOutcome.ok =>
      match verification_error with
      | some (d, c) =>
          Except.ok [ServerTlsLog.verifyFailed d c, ServerTlsLog.ignoringVerifyError]
      | none => Except.ok []
  | EstablishOutcome.invalidCertificateError => Except.error ()
  | EstablishOutcome.netlibError => Except.error ()

/-- The externally observable steps of
`_establish_tls_with_client_and_server`, in order. -/
inductive OrchestrationEvent where
  | ctxConnect
  | serverTlsAttempt
  | clientTlsAttempt
deriving DecidableEq

/-- Embeds `_establish_tls_with_client_and_server` with the outcomes of the
two handshake attempts made explicit: `server_result` is what
`_establish_tls_with_server` does, `client_result` what
`_establish_tls_with_client` would do when attempted.  On a server-side
error the source still attempts the client handshake inside a bare
`except: pass` (its outcome is discarded) and then re-raises the original
server-side error; on server-side success the client handshake's outcome
is the caller's outcome. -/
def establish_tls_with_client_and_server
    (server_result client_result : Except String Unit) :
    Except String Unit × List OrchestrationEvent :=
  match server_result with
  | Except.error e =>
      (Except.error e,
        [OrchestrationEvent.ctxConnect, OrchestrationEvent.serverTlsAttempt,
          OrchestrationEvent.clientTlsAttempt])
  | Except.ok _ =>
      (client_result,
        [OrchestrationEvent.ctxConnect, OrchestrationEvent.serverTlsAttempt,
          OrchestrationEvent.clientTlsAttempt])

/-- The layer-local state `set_server` can change. -/
structure SetServerState where
  server_tls : Bool
  sni_from_server_change : SniSetting
deriving DecidableEq

/-- The single `self.ctx.set_server(...)` call `set_server` forwards. -/
structure CtxSetServerCall where
  address : String
  server_tls_arg : Option Bool
  sni_arg : SniSetting
  depth : Nat
deriving DecidableEq

/-- Embeds `set_server`: when `depth == 1` and `server_tls is not None`,
forward only the address (with `None, None, 1`) and override
`_sni_from_server_change` and `_server_tls` locally; otherwise forward all
arguments unchanged. -/
def set_server (st : SetServerState) (address : String) (server_tls : Option Bool)
    (sni : SniSetting) (depth : Nat) : SetServerState × CtxSetServerCall :=
  match depth, server_tls with
  | 1, some b =>
      ({ server_tls := b, sni_from_server_change := sni },
        { address := address, server_tls_arg := none, sni_arg := SniSetting.pyNone, depth := 1 })
  | _, _ =>
      (st, { address := address, server_tls_arg := server_tls, sni_arg := sni, depth := depth })

/-- The server connection object, as far as `connect` inspects it. -/
structure ServerConnInfo where
  tls_established : Bool
deriving DecidableEq

/-- The externally observable effects of `TlsLayer.connect`. -/
inductive ConnectEffect where
  | ctxConnect
  | establishTlsWithServer
deriving DecidableEq

/-- Embeds `TlsLayer.connect`: `self.ctx.connect()` only when no server
connection exists; afterwards, establish server TLS when `_server_tls` is
set and the (possibly freshly created) server connection has not
established TLS yet.  `conn_after_ctx_connect` is the connection the
surrounding context's `connect()` produces. -/
def connect (server_tls : Bool) (server_conn : Option ServerConnInfo)
    (conn_after_ctx_connect : ServerConnInfo) : List ConnectEffect :=
  match server_conn with
  | none =>
      if server_tls && !conn_after_ctx_connect.tls_established then
        [ConnectEffect.ctxConnect, ConnectEffect.establishTlsWithServer]
      else [ConnectEffect.ctxConnect]
  | some c =>
      if server_tls && !c.tls_established then [ConnectEffect.establishTlsWithServer]
      else []

/-- Peeking `n` bytes at offset `P.length` into `P ++ Q` yields the first
`n` bytes of `Q`. -/
theorem take_drop_append (P Q : List Nat) (n : Nat) :
    ((P ++ Q).take (P.length + n)).drop P.length = Q.take n := by
  induction P with
  | nil => simp
  | cons a t ih =>
    simp only [List.cons_append, List.length_cons]
    rw [Nat.add_right_comm, List.take_succ_cons, List.drop_succ_cons]
    exact ih

/-- Taking five bytes from a serialized record (and whatever follows it)
yields its header. -/
theorem take_five_of_serialized (v : Nat) (b R : List Nat) :
    (serialize_record v b ++ R).take 5 =
      [22, 3, v, b.length / 256, b.length % 256] := rfl

/-- The record header peeked at offset `P.length` into a stream that
continues with a serialized record is that record's header. -/
theorem record_header_at_append (P : List Nat) (v : Nat) (b R : List Nat) :
    record_header_at (P ++ (serialize_record v b ++ R)) P.length =
      [22, 3, v, b.length / 256, b.length % 256] := by
  rw [record_header_at, take_drop_append, take_five_of_serialized]

/-- A serialized record header passes the magic check whenever its minor
version byte is at most 3. -/
theorem is_tls_record_magic_header (v hi lo : Nat) (hv : v ≤ 3) :
    is_tls_record_magic [22, 3, v, hi, lo] = true := by
  interval_cases v <;> rfl

/-- The record size decoded from a serialized header is the body length
plus the 5 header bytes. -/
theorem record_size_of_header (v n : Nat) :
    record_size_of [22, 3, v, n / 256, n % 256] = n + 5 := by
  show 256 * (n / 256) + n % 256 + 5 = n + 5
  omega

/-- Taking `n + 5` elements from a five-cons list takes the five heads and
`n` elements of the tail. -/
theorem take_add_five (h1 h2 h3 h4 h5 : Nat) (t : List Nat) (n : Nat) :
    (h1 :: h2 :: h3 :: h4 :: h5 :: t).take (n + 5) =
      h1 :: h2 :: h3 :: h4 :: h5 :: t.take n := rfl

/-- The record body peeked at offset `P.length` into a stream that
continues with a serialized record is that record's body. -/
theorem record_body_at_append (P : List Nat) (v : Nat) (b R : List Nat) :
    record_body_at (P ++ (serialize_record v b ++ R)) P.length (b.length + 5) = b := by
  rw [record_body_at, ← List.drop_drop, take_drop_append]
  show ((22 :: 3 :: v :: (b.length / 256) :: (b.length % 256) :: b ++ R).take
      (b.length + 5)).drop 5 = b
  rw [List.cons_append, List.cons_append, List.cons_append, List.cons_append,
    List.cons_append, take_add_five]
  show (b ++ R).take b.length = b
  exact List.take_left b R

/-- The `client_hello[1:4]` slice has three bytes as soon as at least four
bytes are accumulated. -/
theorem slice_length_of_four_le (l : List Nat) (h : 4 ≤ l.length) :
    ((l.drop 1).take 3).length = 3 := by
  simp only [List.length_take, List.length_drop]
  omega

/-- The declared handshake size is determined by the first four
accumulated bytes. -/
theorem client_hello_size_of_append (A T : List Nat) (h : 4 ≤ A.length) :
    client_hello_size_of (A ++ T) = client_hello_size_of A := by
  rcases A with _ | ⟨a0, A⟩
  · simp at h
  rcases A with _ | ⟨a1, A⟩
  · simp at h
  rcases A with _ | ⟨a2, A⟩
  · simp at h
  rcases A with _ | ⟨a3, A⟩
  · simp at h
  rfl

/-- One iteration of the reassembly loop over a stream whose next bytes
are a serialized record: the record is validated, its body appended, the
declared size recomputed, and the offset advanced past the record. -/
theorem get_client_hello_loop_step (P b R acc : List Nat) (v size : Nat)
    (hv : v ≤ 3) (hlt : acc.length < size) (h4 : 4 ≤ acc.length + b.length) :
    get_client_hello_loop (P ++ (serialize_record v b ++ R)) acc size P.length =
      get_client_hello_loop (P ++ (serialize_record v b ++ R)) (acc ++ b)
        (client_hello_size_of (acc ++ b)) (P.length + (b.length + 5)) := by
  conv_lhs => rw [get_client_hello_loop]
  rw [if_pos hlt, record_header_at_append, record_size_of_header, record_body_at_append]
  rw [dif_pos ⟨is_tls_record_magic_header v (b.length / 256) (b.length % 256) hv, rfl⟩]
  rw [if_pos (show b.length = b.length + 5 - 5 by omega)]
  rw [if_pos (slice_length_of_four_le (acc ++ b) (by simp only [List.length_append]; omega))]

/-- Running the reassembly loop with `recs` serialized next in the stream
(and arbitrary bytes after them) completes the accumulated handshake `hs`,
provided the accumulator is a prefix of `hs` completed exactly by the
record bodies, `hs` declares its own length, the current size test agrees
with `hs`'s, and either four bytes are already accumulated or we are at the
start with a first record carrying at least the 4-byte handshake header. -/
theorem get_client_hello_loop_run (recs : List (Nat × List Nat)) :
    ∀ (P acc hs extra : List Nat) (size : Nat),
      (∀ r ∈ recs, r.1 ≤ 3 ∧ r.2.length ≤ 65535) →
      acc ++ (recs.map Prod.snd).flatten = hs →
      hs.length = client_hello_size_of hs →
      (acc.length < size ↔ acc.length < hs.length) →
      (4 ≤ acc.length ∨
        (acc = [] ∧ ∀ vb : Nat × List Nat, recs.head? = some vb → 4 ≤ vb.2.length)) →
      get_client_hello_loop (P ++ (serialize_records recs ++ extra)) acc size P.length =
        Except.ok hs := by
  induction recs with
  | nil =>
      intro P acc hs extra size hvalid hjoin hsize hsz hacc
      simp only [List.map_nil, List.flatten_nil, List.append_nil] at hjoin
      subst hjoin
      rw [get_client_hello_loop, if_neg]
      intro hcon
      exact absurd (hsz.mp hcon) (lt_irrefl _)
  | cons r recs ih =>
      obtain ⟨v, b⟩ := r
      intro P acc hs extra size hvalid hjoin hsize hsz hacc
      simp only [List.map_cons, List.flatten_cons] at hjoin
      by_cases hlt : acc.length < hs.length
      · have hv := (hvalid (v, b) (List.mem_cons_self _ _)).1
        have h4 : 4 ≤ acc.length + b.length := by
          rcases hacc with h | ⟨rfl, hf⟩
          · omega
          · have hb := hf (v, b) rfl
            simpa using hb
        have hstream : serialize_records ((v, b) :: recs) ++ extra =
            serialize_record v b ++ (serialize_records recs ++ extra) := by
          simp [serialize_records, List.append_assoc]
        rw [hstream, get_client_hello_loop_step P b (serialize_records recs ++ extra)
          acc v size hv (hsz.mpr hlt) h4]
        have hjoin2 : (acc ++ b) ++ (recs.map Prod.snd).flatten = hs := by
          rw [List.append_assoc]
          exact hjoin
        have h4' : 4 ≤ (acc ++ b).length := by
          simp only [List.length_append]
          omega
        have hsz2 : client_hello_size_of (acc ++ b) = hs.length := by
          calc client_hello_size_of (acc ++ b)
              = client_hello_size_of ((acc ++ b) ++ (recs.map Prod.snd).flatten) :=
                (client_hello_size_of_append _ _ h4').symm
            _ = client_hello_size_of hs := by rw [hjoin2]
            _ = hs.length := hsize.symm
        have harr : P ++ (serialize_record v b ++ (serialize_records recs ++ extra)) =
            (P ++ serialize_record v b) ++ (serialize_records recs ++ extra) :=
          (List.append_assoc P _ _).symm
        have hofs : P.length + (b.length + 5) = (P ++ serialize_record v b).length := by
          simp [serialize_record, List.length_append]
        rw [harr, hofs]
        exact ih (P ++ serialize_record v b) (acc ++ b) hs extra
          (client_hello_size_of (acc ++ b))
          (fun r hr => hvalid r (List.mem_cons_of_mem _ hr)) hjoin2 hsize
          (by rw [hsz2]) (Or.inl h4')
      · have hnolt : ¬ acc.length < size := fun hcon => hlt (hsz.mp hcon)
        have hlen := congrArg List.length hjoin
        rw [List.length_append] at hlen
        have hJ : (b ++ (recs.map Prod.snd).flatten) = [] := by
          apply List.length_eq_zero.mp
          omega
        rw [hJ, List.append_nil] at hjoin
        subst hjoin
        rw [get_client_hello_loop, if_neg hnolt]

/-- C7 amended: a ClientHello handshake `hs` that declares its own length
(`hs.length = 4 +` its 3-byte big-endian length field), split across any
number of TLS records in any way that puts at least the 4-byte handshake
header into the first record, reassembles — via peeks only, over the
serialized records followed by arbitrary further stream bytes — to the
byte-identical handshake `hs`, regardless of the number of records and of
the split. -/
theorem reassembly_regardless_of_split (v1 : Nat) (b1 : List Nat)
    (recs : List (Nat × List Nat)) (hs extra : List Nat)
    (hvalid : ∀ r ∈ (v1, b1) :: recs, r.1 ≤ 3 ∧ r.2.length ≤ 65535)
    (hfirst : 4 ≤ b1.length)
    (hjoin : (((v1, b1) :: recs).map Prod.snd).flatten = hs)
    (hsize : hs.length = client_hello_size_of hs) :
    get_client_hello (serialize_records ((v1, b1) :: recs) ++ extra) = Except.ok hs := by
  have hpos : 0 < hs.length := by
    rw [hsize]
    simp only [client_hello_size_of]
    omega
  rw [get_client_hello]
  have h0 : serialize_records ((v1, b1) :: recs) ++ extra =
      ([] : List Nat) ++ (serialize_records ((v1, b1) :: recs) ++ extra) := rfl
  rw [h0]
  exact get_client_hello_loop_run ((v1, b1) :: recs) [] [] hs extra 1 hvalid
    (by simpa using hjoin) hsize
    ⟨fun _ => hpos, fun _ => Nat.one_pos⟩
    (Or.inr ⟨rfl, fun vb hvb => by
      cases hvb
      simpa using hfirst⟩)

/-- Witness for the amended C7 theorem: the 6-byte handshake
`[1, 0, 0, 2, 9, 9]` split into a 4-byte and a 2-byte record reassembles
byte-identically. -/
theorem reassembly_regardless_of_split_witness :
    get_client_hello (serialize_records [(1, [1, 0, 0, 2]), (3, [9, 9])] ++ []) =
      Except.ok [1, 0, 0, 2, 9, 9] := by
  exact reassembly_regardless_of_split 1 [1, 0, 0, 2] [(3, [9, 9])] [1, 0, 0, 2, 9, 9] []
    (by decide) (by decide) (by decide) (by decide)

/-- C7 counterexample: the same 6-byte handshake `[1, 0, 0, 2, 9, 9]`
split so that the first record carries only 2 bytes.  The source computes
`struct.unpack("!I", '\x00' + client_hello[1:4])` right after the first
record, with only one byte in `client_hello[1:4]`, and raises
`struct.error` instead of reassembling — so reassembly is not
split-independent for every N-way split, as the claim states. -/
theorem reassembly_short_first_record_counterexample :
    get_client_hello (serialize_records [(1, [1, 0]), (1, [0, 2, 9, 9])]) =
      Except.error ReassemblyError.structError ∧
      (([(1, [1, 0]), (1, [0, 2, 9, 9])] : List (Nat × List Nat)).map Prod.snd).flatten =
        [1, 0, 0, 2, 9, 9] ∧
      ([1, 0, 0, 2, 9, 9] : List Nat).length =
        client_hello_size_of [1, 0, 0, 2, 9, 9] := by
  refine ⟨?_, by decide, by decide⟩
  rw [get_client_hello, get_client_hello_loop]
  rw [if_pos (by decide), dif_pos (by decide), if_pos (by decide), if_neg (by decide)]

/-- C1: in the server-first ordering path, when establishing TLS with the
server fails with error `e`, exactly one client-side TLS attempt is made
afterwards (after the connect and the server attempt), its outcome —
whatever it is — is discarded, and the error propagated to the caller is
the original server-side error `e`. -/
theorem server_first_failure_propagates_original (e : String)
    (client_result : Except String Unit) :
    (establish_tls_with_client_and_server (Except.error e) client_result).1 =
        Except.error e ∧
      (establish_tls_with_client_and_server (Except.error e) client_result).2 =
        [OrchestrationEvent.ctxConnect, OrchestrationEvent.serverTlsAttempt,
          OrchestrationEvent.clientTlsAttempt] ∧
      ((establish_tls_with_client_and_server (Except.error e) client_result).2.count
          OrchestrationEvent.clientTlsAttempt) = 1 := by
  refine ⟨rfl, rfl, ?_⟩
  rfl

/-- C8: when `establish_ssl` completes but the endpoint reports a peer
certificate verification error, the layer logs the failure with its chain
depth and error code, logs that it ignores it, and raises no exception:
the connection proceeds. -/
theorem server_verification_error_nonfatal (d errno : Nat) :
    establish_tls_with_server EstablishOutcome.ok (some (d, errno)) =
      Except.ok [ServerTlsLog.verifyFailed d errno, ServerTlsLog.ignoringVerifyError] := rfl

/-- C4 counterexample: with an explicit override that is the empty string
and an extracted client SNI `"a.com"`, the source returns `"a.com"`
(Python's `or` treats `""` as falsy), not the override name `""` the claim
predicts. -/
theorem sni_override_empty_string_counterexample :
    sni_for_server_connection (SniSetting.pyStr "") (some "a.com") = some "a.com" ∧
      (some "a.com" : Option String) ≠ some "" := by
  exact ⟨rfl, by decide⟩

/-- C4 amended: `sni_for_server_connection` returns no SNI when the stored
override is `False` (ForceNone), regardless of the client SNI; returns the
override name when the override is a non-empty string; and when the
override is the empty string or `None` (Unset), returns the extracted
client SNI, or none if absent. -/
theorem sni_for_server_connection_amended (client_sni : Option String) (s : String) :
    sni_for_server_connection SniSetting.pyFalse client_sni = none ∧
      (s ≠ "" → sni_for_server_connection (SniSetting.pyStr s) client_sni = some s) ∧
      sni_for_server_connection (SniSetting.pyStr "") client_sni = client_sni ∧
      sni_for_server_connection SniSetting.pyNone client_sni = client_sni := by
  refine ⟨rfl, ?_, ?_, rfl⟩
  · intro h
    simp [sni_for_server_connection, h]
  · simp [sni_for_server_connection]

/-- Witness for the amended C4 theorem at override `"b.com"` and client SNI
`"a.com"`. -/
theorem sni_for_server_connection_amended_witness :
    sni_for_server_connection (SniSetting.pyStr "b.com") (some "a.com") = some "b.com" := by
  exact (sni_for_server_connection_amended (some "a.com") "b.com").2.1 (by decide)

/-- C2 counterexample: a server-name extension whose first entry has type 1
and name `"x"` and whose second entry has type 0 and name `"y"`.  The
source sets `client_sni` from `server_names[0].name`, i.e. `"x"` (and logs
one warning), not from the first type-0 entry `"y"` as the claim predicts. -/
theorem sni_extension_first_entry_counterexample :
    walk_extensions
        [ParsedExtension.serverNames
          [{ type := 1, name := "x" }, { type := 0, name := "y" }]] none none 0 =
      Except.ok (some "x", none, 1) ∧
      (some "x" : Option String) ≠ some "y" := by
  exact ⟨rfl, by decide⟩

/-- C2 amended: for a parsed server-name extension, a non-empty entry list
always sets `client_sni` to the first entry's name, whatever the entries'
types, with a warning logged exactly when the entry count differs from one
or the first entry's type differs from zero; an empty entry list makes the
extension walk raise an `IndexError` that propagates past the parser. -/
theorem sni_extension_walk_amended (entries : List ServerName) :
    (entries = [] →
        walk_extensions [ParsedExtension.serverNames entries] none none 0 =
          Except.error ParseAbort.indexError) ∧
      (∀ n rest, entries = n :: rest →
        walk_extensions [ParsedExtension.serverNames entries] none none 0 =
          Except.ok (some n.name, none,
            if entries.length ≠ 1 ∨ n.type ≠ 0 then 1 else 0)) := by
  constructor
  · rintro rfl
    rfl
  · rintro n rest rfl
    simp [walk_extensions]

/-- Witness for the amended C2 theorem at the two-entry list whose first
entry has nonzero type. -/
theorem sni_extension_walk_amended_witness :
    walk_extensions
        [ParsedExtension.serverNames
          [{ type := 1, name := "x" }, { type := 0, name := "y" }]] none none 0 =
      Except.ok (some "x", none, 1) := by
  have h :=
    (sni_extension_walk_amended
        [{ type := 1, name := "x" }, { type := 0, name := "y" }]).2
      { type := 1, name := "x" } [{ type := 0, name := "y" }] rfl
  simpa using h

/-- C5: for every option list, the ALPN selection callback returns the
protocol already negotiated with the server when the client offered it;
otherwise the default token `"http/1.1"` when offered; otherwise the first
offered protocol. -/
theorem alpn_select_callback_policy (server_negotiated : Option String)
    (options : List String) :
    (∀ p, server_negotiated = some p → p ∈ options →
        alpn_select_callback server_negotiated options = Except.ok p) ∧
      ((¬ ∃ p, server_negotiated = some p ∧ p ∈ options) →
        ALPN_PROTO_HTTP1 ∈ options →
        alpn_select_callback server_negotiated options = Except.ok ALPN_PROTO_HTTP1) ∧
      ((¬ ∃ p, server_negotiated = some p ∧ p ∈ options) →
        ALPN_PROTO_HTTP1 ∉ options →
        ∀ o rest, options = o :: rest →
        alpn_select_callback server_negotiated options = Except.ok o) := by
  refine ⟨?_, ?_, ?_⟩
  · rintro p rfl hp
    simp [alpn_select_callback, hp]
  · intro hno hdef
    match server_negotiated with
    | none => simp [alpn_select_callback, alpn_fallback_choice, hdef]
    | some p =>
        have hp : p ∉ options := fun hmem => hno ⟨p, rfl, hmem⟩
        simp [alpn_select_callback, alpn_fallback_choice, hp, hdef]
  · rintro hno hdef o rest rfl
    match server_negotiated with
    | none => simp [alpn_select_callback, alpn_fallback_choice, hdef]
    | some p =>
        have hp : p ∉ o :: rest := fun hmem => hno ⟨p, rfl, hmem⟩
        simp [alpn_select_callback, alpn_fallback_choice, hp, hdef]

/-- Witness for the C5 theorem: upstream negotiated `"h2"` and the client
offered `["h2", "http/1.1"]`, so the callback returns `"h2"`. -/
theorem alpn_select_callback_policy_witness :
    alpn_select_callback (some "h2") ["h2", "http/1.1"] = Except.ok "h2" := by
  exact (alpn_select_callback_policy (some "h2") ["h2", "http/1.1"]).1 "h2" rfl (by decide)

/-- C9 counterexample: a depth-1 call with `server_tls = None` is forwarded
to the surrounding context with all arguments unchanged (including the SNI
argument), and the layer-local state is untouched — contrary to the claim
that every depth-1 call overrides locally and forwards only the address. -/
theorem set_server_depth_one_counterexample :
    set_server { server_tls := false, sni_from_server_change := SniSetting.pyNone }
        "example.com" none (SniSetting.pyStr "sni.com") 1 =
      ({ server_tls := false, sni_from_server_change := SniSetting.pyNone },
        { address := "example.com", server_tls_arg := none,
          sni_arg := SniSetting.pyStr "sni.com", depth := 1 }) ∧
      SniSetting.pyStr "sni.com" ≠ SniSetting.pyNone := by
  exact ⟨rfl, by decide⟩

/-- C9 amended: a call with `depth == 1` and a non-`None` `server_tls`
overrides the destination, the `server_tls` flag and the SNI override
locally and forwards only the address change (as `address, None, None, 1`);
a call with `depth ≠ 1` or with `server_tls = None` is forwarded to the
surrounding context with all arguments unchanged. -/
theorem set_server_amended (st : SetServerState) (address : String) (b : Bool)
    (server_tls : Option Bool) (sni : SniSetting) (depth : Nat) :
    (depth = 1 →
        set_server st address (some b) sni depth =
          ({ server_tls := b, sni_from_server_change := sni },
            { address := address, server_tls_arg := none,
              sni_arg := SniSetting.pyNone, depth := 1 })) ∧
      (depth ≠ 1 ∨ server_tls = none →
        set_server st address server_tls sni depth =
          (st, { address := address, server_tls_arg := server_tls,
                  sni_arg := sni, depth := depth })) := by
  constructor
  · rintro rfl
    rfl
  · rintro (hd | rfl)
    · match depth, hd with
      | 0, _ => cases server_tls <;> rfl
      | Nat.succ (Nat.succ k), _ => cases server_tls <;> rfl
    · match depth with
      | 0 => rfl
      | 1 => rfl
      | Nat.succ (Nat.succ k) => rfl

/-- Witness for the amended C9 theorem: a depth-1 call with
`server_tls = some true` and SNI `"sni.com"` overrides locally and
forwards only the address. -/
theorem set_server_amended_witness :
    set_server { server_tls := false, sni_from_server_change := SniSetting.pyNone }
        "example.com" (some true) (SniSetting.pyStr "sni.com") 1 =
      ({ server_tls := true, sni_from_server_change := SniSetting.pyStr "sni.com" },
        { address := "example.com", server_tls_arg := none,
          sni_arg := SniSetting.pyNone, depth := 1 }) := by
  exact (set_server_amended
      { server_tls := false, sni_from_server_change := SniSetting.pyNone }
      "example.com" true (some true) (SniSetting.pyStr "sni.com") 1).1 rfl

/-- C10: `TlsLayer.connect` invokes the surrounding context's `connect`
exactly when no server connection exists yet; when one already exists, no
new connection is opened and the only effect is establishing server-side
TLS when `_server_tls` is set and TLS is not yet established — otherwise
there is no effect at all. -/
theorem connect_effects (server_tls : Bool) (server_conn : Option ServerConnInfo)
    (conn_after_ctx_connect : ServerConnInfo) :
    (ConnectEffect.ctxConnect ∈ connect server_tls server_conn conn_after_ctx_connect ↔
        server_conn = none) ∧
      (∀ c, server_conn = some c →
        connect server_tls server_conn conn_after_ctx_connect =
          if server_tls && !c.tls_established then [ConnectEffect.establishTlsWithServer]
          else []) := by
  constructor
  · cases server_conn with
    | none =>
        simp only [connect]
        constructor
        · intro _
          trivial
        · intro _
          split <;> simp
    | some c =>
        simp only [connect]
        constructor
        · intro hmem
          split at hmem <;> simp at hmem
        · intro h
          cases h
  · rintro c rfl
    rfl

/-- Witness for the C10 theorem: with server TLS enabled and an existing
connection without TLS, the single effect is the server-side TLS
establishment. -/
theorem connect_effects_witness :
    connect true (some { tls_established := false }) { tls_established := false } =
      [ConnectEffect.establishTlsWithServer] := by
  have h :=
    (connect_effects true (some { tls_established := false })
        { tls_established := false }).2 { tls_established := false } rfl
  simpa using h

/-- C3 failing input: the single well-framed TLS record
`16 03 01 00 02 | 01 00` whose 2-byte body leaves `client_hello[1:4]` with
one byte, so `struct.unpack("!I", '\x00' + client_hello[1:4])` raises
`struct.error` — which `_parse_client_hello` does not catch (it catches
only `ProtocolException` and `ConstructError`), so the exception
propagates out of `_parse_client_hello`, contrary to the claim that every
reassembly failure leaves it returning normally. -/
theorem parse_client_hello_struct_error_escapes :
    parse_client_hello (fun _ => Except.error ()) [22, 3, 1, 0, 2, 1, 0] =
      Except.error ParseAbort.structError := by
  have h : get_client_hello [22, 3, 1, 0, 2, 1, 0] =
      Except.error ReassemblyError.structError := by
    rw [get_client_hello, get_client_hello_loop]
    rw [if_pos (by decide), dif_pos (by decide), if_pos (by decide), if_neg (by decide)]
  rw [parse_client_hello, h]
  rfl

/-- C6: `_find_cert` computes exactly the host and SAN set the claim
describes, provided the upstream common name, the extracted client SNI and
the explicit override, when present, are non-empty strings (Python's
truthiness tests treat an empty string as absent). -/
theorem find_cert_matches_spec (server_host : String)
    (tls_established no_upstream_cert : Bool) (upstream_altnames : List String)
    (upstream_cn : Option String) (client_sni : Option String)
    (sni_from_server_change : SniSetting) (idna : String → String)
    (hcn : upstream_cn ≠ some "") (hsni : client_sni ≠ some "")
    (hov : ∀ s, sni_from_server_change = SniSetting.pyStr s → s ≠ "") :
    find_cert server_host tls_established no_upstream_cert upstream_altnames
        upstream_cn client_sni sni_from_server_change idna =
      spec_find_cert server_host tls_established no_upstream_cert upstream_altnames
        upstream_cn client_sni (sni_override_name sni_from_server_change) idna := by
  rcases upstream_cn with _ | c <;> rcases client_sni with _ | s <;>
    rcases sni_from_server_change with _ | _ | t <;>
      simp_all [find_cert, spec_find_cert, sni_override_name]

/-- Witness for the C6 theorem at the spec's own example: upstream CN
`"orig.com"`, upstream altnames `["alt1.com"]`, client SNI `"sni.com"`,
original host `"1.2.3.4"`, no explicit override, identity IDNA encoding:
the resolved host is `"orig.com"` and the SAN set is
`{"alt1.com", "1.2.3.4", "sni.com"}`. -/
theorem find_cert_matches_spec_witness :
    find_cert "1.2.3.4" true false ["alt1.com"] (some "orig.com") (some "sni.com")
        SniSetting.pyNone (fun s => s) =
      ("orig.com", insert "alt1.com" (insert "1.2.3.4"
        (insert "sni.com" (∅ : Finset String)))) := by
  have h := find_cert_matches_spec "1.2.3.4" true false ["alt1.com"] (some "orig.com")
    (some "sni.com") SniSetting.pyNone (fun s => s) (by decide) (by decide)
    (fun s hs => by cases hs)
  rw [h]
  decide

end MitmproxyTls
